import Mathlib

/-
Verification of the check lifecycle engine of the Cogninance Checks System.

The definitions below are a shallow embedding of the Python source:
  - banking_system1/managers/check_manager.py   (CheckManager)
  - banking_system1/managers/transaction_manager.py (TransactionManager)
  - banking_system1/database/schema.py          (the sqlite schema)

Modelling conventions:
  - The sqlite tables `users` and `checks` are lists of records held in a
    `BankState` together with the two AUTOINCREMENT counters.
  - sqlite `SELECT ... fetchone()` over a scan is `List.find?` (first row in
    insertion order); `UPDATE ... WHERE id=?` maps the update over every row
    whose id matches; `DELETE ... WHERE id=?` filters those rows out.
  - Python ints are `Int`; timestamps are `Int` seconds.  A stored
    `issued_at` is `Option Int`: `some t` stands for a TEXT column value that
    `datetime.fromisoformat` parses to time `t`, and `none` for a value on
    which parsing raises (the `except: pass` paths of the source).
  - `datetime.now()` is an explicit `now : Int` argument threaded to the
    operations that read the clock.
  - Monetary amounts are carried opaquely (no arithmetic is performed on
    them by the engine), so they are `Int` here.
  - SQL `LOWER` / Python `.lower()` is a character-wise lowering, `LIKE
    '%q%'` on a metacharacter-free pattern is substring containment, and
    Python `.strip()` is whitespace trimming; these are implemented on
    `List Char` below so that they evaluate inside the kernel.
-/

namespace Cogninance

/-- Character-wise lowercase, the model of SQL `LOWER` / Python `.lower()`. -/
def lowerList (l : List Char) : List Char := l.map Char.toLower

/-- Whitespace trimming on both ends, the model of Python `str.strip()`. -/
def trimList (l : List Char) : List Char :=
  ((l.dropWhile Char.isWhitespace).reverse.dropWhile Char.isWhitespace).reverse

/-- Does the second list start with the first one? -/
def leadMatch : List Char → List Char → Bool
  | [], _ => true
  | _ :: _, [] => false
  | a :: as, b :: bs => a == b && leadMatch as bs

/-- Substring containment: the model of SQL `LIKE '%q%'` on a pattern free of
`LIKE` metacharacters. -/
def hasSub (sub : List Char) : List Char → Bool
  | [] => sub.isEmpty
  | c :: cs => leadMatch sub (c :: cs) || hasSub sub cs

/-- The `status` column: `CHECK (status IN ('PENDING', 'ACCEPTED', 'DENIED',
'FORWARDED', 'TOKENIZED'))` in schema.py. -/
inductive Status where
  | PENDING
  | ACCEPTED
  | DENIED
  | FORWARDED
  | TOKENIZED
deriving DecidableEq, Repr

/-- Rendering of a status value, as interpolated into Python messages. -/
def statusText : Status → String
  | .PENDING => "PENDING"
  | .ACCEPTED => "ACCEPTED"
  | .DENIED => "DENIED"
  | .FORWARDED => "FORWARDED"
  | .TOKENIZED => "TOKENIZED"

/-- A row of the `users` table. -/
structure User where
  id : Int
  username : String
  balance : Int
deriving DecidableEq, Repr

/-- A row of the `checks` table. -/
structure Check where
  id : Int
  issuer_id : Int
  payee_id : Int
  sender_id : Option Int
  amount : Int
  status : Status
  issued_at : Option Int
  maturity_date : Int
  parent_check_id : Option Int
deriving DecidableEq, Repr

/-- The persistent store: both tables plus the AUTOINCREMENT counters. -/
structure BankState where
  users : List User
  checks : List Check
  nextUserId : Int
  nextCheckId : Int
deriving DecidableEq, Repr

/-- Exact case-insensitive username match:
`SELECT id FROM users WHERE LOWER(username) = LOWER(?)`. -/
def exactNameMatch (clean : List Char) (u : User) : Bool :=
  lowerList u.username.toList == lowerList clean

/-- Containment match:
`SELECT id FROM users WHERE LOWER(username) LIKE '%q%'` with `q` lowered. -/
def fuzzyNameMatch (clean : List Char) (u : User) : Bool :=
  hasSub (lowerList clean) (lowerList u.username.toList)

/-- The cleaned query name: `clean_name = name.strip()`, then lowered at each
use site. -/
def cleanedName (name : String) : List Char := trimList name.toList

/-- `CheckManager._resolve_user`: exact case-insensitive match, else unique
containment match, else insert a fresh user with the trimmed name and zero
balance. -/
def resolveUser (s : BankState) (name : String) : Int × BankState :=
  match s.users.find? (exactNameMatch (cleanedName name)) with
  | some u => (u.id, s)
  | none =>
    match s.users.filter (fuzzyNameMatch (cleanedName name)) with
    | [u] => (u.id, s)
    | _ =>
      (s.nextUserId,
       { s with
           users := s.users ++
             [{ id := s.nextUserId, username := ⟨cleanedName name⟩, balance := 0 }],
           nextUserId := s.nextUserId + 1 })

/-- The `(success, message, check_id)` triple every CheckManager status
operation returns. -/
structure OpResult where
  ok : Bool
  msg : String
  cid : Option Int
deriving DecidableEq, Repr

/-- `CheckManager.issue_check`: resolve the payee, insert a fresh `PENDING`
check with `sender_id = issuer`. -/
def issue_check (s : BankState) (issuer_id : Int) (payee_name : String)
    (amount : Int) (now : Int) (custom_date : Option Int)
    (days_to_maturity : Int) : OpResult × BankState :=
  (⟨true, s!"Check #{(resolveUser s payee_name).2.nextCheckId} issued to {payee_name}.",
     some (resolveUser s payee_name).2.nextCheckId⟩,
   { (resolveUser s payee_name).2 with
       checks := (resolveUser s payee_name).2.checks ++
         [{ id := (resolveUser s payee_name).2.nextCheckId,
            issuer_id := issuer_id,
            payee_id := (resolveUser s payee_name).1,
            sender_id := some issuer_id,
            amount := amount,
            status := Status.PENDING,
            issued_at := some now,
            maturity_date := custom_date.getD (now + days_to_maturity * 86400),
            parent_check_id := none }],
       nextCheckId := (resolveUser s payee_name).2.nextCheckId + 1 })

/-- Row selector of `accept_check` when called with a check id:
`id=? AND payee_id=? AND status IN ('PENDING', 'DENIED')`. -/
def acceptSel (uid cid : Int) (c : Check) : Bool :=
  c.id == cid && c.payee_id == uid &&
    (c.status == Status.PENDING || c.status == Status.DENIED)

/-- The row update of a successful accept:
`UPDATE checks SET status='ACCEPTED', sender_id=NULL WHERE id=?`. -/
def acceptUpdate (cid : Int) (x : Check) : Check :=
  if x.id == cid then { x with status := Status.ACCEPTED, sender_id := none } else x

/-- `CheckManager.accept_check` with a check id. -/
def accept_check (s : BankState) (user_id check_id : Int) : OpResult × BankState :=
  match s.checks.find? (acceptSel user_id check_id) with
  | none => (⟨false, "Check not found or not available to accept.", none⟩, s)
  | some c =>
    (⟨true, s!"Check #{c.id} Accepted", some c.id⟩,
     { s with checks := s.checks.map (acceptUpdate c.id) })

/-- Row selector of `accept_check` when called with an issuer name (the
resolved candidate id filters `sender_id`). -/
def acceptByIssuerSel (uid cand : Int) (c : Check) : Bool :=
  c.payee_id == uid &&
    (c.status == Status.PENDING || c.status == Status.DENIED) &&
    c.sender_id == some cand

/-- `CheckManager.accept_check` with an issuer name instead of an id. -/
def accept_check_by_issuer (s : BankState) (user_id : Int)
    (issuer_name : String) : OpResult × BankState :=
  match (resolveUser s issuer_name).2.checks.find?
      (acceptByIssuerSel user_id (resolveUser s issuer_name).1) with
  | none =>
    (⟨false, "Check not found or not available to accept.", none⟩,
     (resolveUser s issuer_name).2)
  | some c =>
    (⟨true, s!"Check #{c.id} Accepted", some c.id⟩,
     { (resolveUser s issuer_name).2 with
         checks := (resolveUser s issuer_name).2.checks.map (acceptUpdate c.id) })

/-- Row selector of `deny_check` with a check id:
`id=? AND payee_id=? AND status IN ('PENDING', 'ACCEPTED')`. -/
def denySel (uid cid : Int) (c : Check) : Bool :=
  c.id == cid && c.payee_id == uid &&
    (c.status == Status.PENDING || c.status == Status.ACCEPTED)

/-- The row update of a successful deny: only the status changes. -/
def denyUpdate (cid : Int) (x : Check) : Check :=
  if x.id == cid then { x with status := Status.DENIED } else x

/-- `CheckManager.deny_check` with a check id. -/
def deny_check (s : BankState) (user_id check_id : Int) : OpResult × BankState :=
  match s.checks.find? (denySel user_id check_id) with
  | none => (⟨false, "Check not found.", none⟩, s)
  | some c =>
    (⟨true, s!"Check #{c.id} Denied", some c.id⟩,
     { s with checks := s.checks.map (denyUpdate c.id) })

/-- Row selector of `deny_check` with an issuer name. -/
def denyByIssuerSel (uid cand : Int) (c : Check) : Bool :=
  c.payee_id == uid &&
    (c.status == Status.PENDING || c.status == Status.ACCEPTED) &&
    c.sender_id == some cand

/-- `CheckManager.deny_check` with an issuer name instead of an id. -/
def deny_check_by_issuer (s : BankState) (user_id : Int)
    (issuer_name : String) : OpResult × BankState :=
  match (resolveUser s issuer_name).2.checks.find?
      (denyByIssuerSel user_id (resolveUser s issuer_name).1) with
  | none => (⟨false, "Check not found.", none⟩, (resolveUser s issuer_name).2)
  | some c =>
    (⟨true, s!"Check #{c.id} Denied", some c.id⟩,
     { (resolveUser s issuer_name).2 with
         checks := (resolveUser s issuer_name).2.checks.map (denyUpdate c.id) })

/-- Row selector of `forward_check`:
`id=? AND payee_id=? AND status='ACCEPTED'`. -/
def forwardSel (uid cid : Int) (c : Check) : Bool :=
  c.id == cid && c.payee_id == uid && c.status == Status.ACCEPTED

/-- The row update of a successful forward: new payee, sender = forwarding
holder, back to `PENDING`, clock restarted. -/
def forwardUpdate (cid new_payee uid now : Int) (x : Check) : Check :=
  if x.id == cid then
    { x with payee_id := new_payee, sender_id := some uid,
             status := Status.PENDING, issued_at := some now }
  else x

/-- `CheckManager.forward_check`: transfers ownership of the same row, never
inserting a new one. -/
def forward_check (s : BankState) (user_id check_id : Int)
    (new_payee_name : String) (now : Int) : OpResult × BankState :=
  match s.checks.find? (forwardSel user_id check_id) with
  | none => (⟨false, "Check not found, not accepted, or you do not own it.", none⟩, s)
  | some _ =>
    (⟨true, s!"Check #{check_id} forwarded to {new_payee_name}.", some check_id⟩,
     { (resolveUser s new_payee_name).2 with
         checks := (resolveUser s new_payee_name).2.checks.map
           (forwardUpdate check_id (resolveUser s new_payee_name).1 user_id now) })

/-- The one-hour window test shared by both cancellation paths.  `none`
stands for an `issued_at` text on which `datetime.fromisoformat` raises, in
which case the source's `except: pass` skips the test altogether. -/
def windowExpired (issued_at : Option Int) (now : Int) : Bool :=
  match issued_at with
  | some t => now - t > 3600
  | none => false

/-- Row selector of `cancel_forward`:
`id=? AND sender_id=? AND status='PENDING'`. -/
def cancelFwdSel (uid cid : Int) (c : Check) : Bool :=
  c.id == cid && c.sender_id == some uid && c.status == Status.PENDING

/-- The row update of a successful forward cancellation; the restored
`sender_id` is the caller when the caller is the original issuer, else null. -/
def cancelFwdUpdate (cid uid : Int) (new_sender : Option Int) (x : Check) : Check :=
  if x.id == cid then
    { x with payee_id := uid, sender_id := new_sender, status := Status.ACCEPTED }
  else x

/-- `CheckManager.cancel_forward`: pulls back a forwarded check within one
hour of the (re-stamped) `issued_at`. -/
def cancel_forward (s : BankState) (user_id check_id now : Int) :
    (Bool × String) × BankState :=
  match s.checks.find? (cancelFwdSel user_id check_id) with
  | none =>
    ((false, "Cannot cancel: Check not found, already accepted by recipient, or not sent by you."), s)
  | some c =>
    if windowExpired c.issued_at now then
      ((false, "Cannot cancel: 1-hour revocation window has expired."), s)
    else
      ((true, s!"Forward for Check #{check_id} cancelled. It has been returned to your wallet."),
       { s with checks :=
           (s.checks.map
             (cancelFwdUpdate check_id user_id
               (if c.issuer_id == user_id then some user_id else none))) })

/-- Row selector of `cancel_issuance`:
`id=? AND issuer_id=? AND status='PENDING'`. -/
def cancelIssSel (uid cid : Int) (c : Check) : Bool :=
  c.id == cid && c.issuer_id == uid && c.status == Status.PENDING

/-- `CheckManager.cancel_issuance`: hard delete of the row, within one hour
of `issued_at`. -/
def cancel_issuance (s : BankState) (user_id check_id now : Int) :
    (Bool × String) × BankState :=
  match s.checks.find? (cancelIssSel user_id check_id) with
  | none =>
    ((false, "Cannot cancel: Check not found or recipient has already processed it."), s)
  | some c =>
    if windowExpired c.issued_at now then
      ((false, "Cannot cancel: 1-hour revocation window has expired."), s)
    else
      ((true, s!"Issuance of Check #{check_id} cancelled."),
       { s with checks := s.checks.filter (fun x => !(x.id == check_id)) })

/-- The row update of `revoke_incoming_decision`: back to `PENDING`. -/
def revokeUpdate (cid : Int) (x : Check) : Check :=
  if x.id == cid then { x with status := Status.PENDING } else x

/-- `CheckManager.revoke_incoming_decision`: the payee resets any decision
back to `PENDING`, with no time window. -/
def revoke_incoming_decision (s : BankState) (user_id check_id : Int) :
    (Bool × String) × BankState :=
  match s.checks.find? (fun c => c.id == check_id && c.payee_id == user_id) with
  | none => ((false, "You do not own this check."), s)
  | some _ =>
    ((true, s!"Decision reset. Check #{check_id} is back to PENDING status."),
     { s with checks := s.checks.map (revokeUpdate check_id) })

/-- The loop body of `TransactionManager._execute_revoke_operation` for one
check id: fetch the row, branch on sender, issuer, payee in that order, and
call the matching engine operation; otherwise fail without touching the
engine. -/
def execute_revoke_one (s : BankState) (user_id cid now : Int) :
    (Bool × String) × BankState :=
  match s.checks.find? (fun c => c.id == cid) with
  | none => ((false, "Not found"), s)
  | some check =>
    if check.sender_id == some user_id && check.status == Status.PENDING then
      cancel_forward s user_id cid now
    else if check.issuer_id == user_id && check.status == Status.PENDING then
      cancel_issuance s user_id cid now
    else if check.payee_id == user_id then
      if check.status == Status.ACCEPTED || check.status == Status.DENIED then
        revoke_incoming_decision s user_id cid
      else
        ((false, s!"Check is {statusText check.status}, nothing to revoke."), s)
    else
      ((false, "You cannot revoke this check (wrong status or ownership)."), s)

/-- `ids = [x for x in ids if x]`: the Router drops falsy (zero) ids and
keeps everything else, duplicates included. -/
def keptIds (ids : List Int) : List Int := ids.filter (fun x => !(x == 0))

/-- The accept loop of `TransactionManager._execute_accept_check`: one engine
call and one `"#id: message"` entry per list element, in order. -/
def acceptLoop (user_id : Int) : BankState → List Int → BankState × List String
  | s, [] => (s, [])
  | s, cid :: rest =>
    let r := accept_check s user_id cid
    let m := r.1.msg
    let rec_ := acceptLoop user_id r.2 rest
    (rec_.1, (s!"#{cid}: {m}") :: rec_.2)

/-- The deny loop of `TransactionManager._execute_deny_check`. -/
def denyLoop (user_id : Int) : BankState → List Int → BankState × List String
  | s, [] => (s, [])
  | s, cid :: rest =>
    let r := deny_check s user_id cid
    let m := r.1.msg
    let rec_ := denyLoop user_id r.2 rest
    (rec_.1, (s!"#{cid}: {m}") :: rec_.2)

/-- The revoke loop of `TransactionManager._execute_revoke_operation`:
per element, the per-check success flag and the prefixed message. -/
def revokeLoop (user_id now : Int) : BankState → List Int → BankState × List (Bool × String)
  | s, [] => (s, [])
  | s, cid :: rest =>
    let r := execute_revoke_one s user_id cid now
    let ok := r.1.1
    let m := r.1.2
    let rec_ := revokeLoop user_id now r.2 rest
    (rec_.1, (ok, s!"#{cid}: {m}") :: rec_.2)

/-- `TransactionManager._execute_accept_check`, batch path: filter falsy
ids, run the loop, join messages with " | ". -/
def execute_accept_list (s : BankState) (user_id : Int) (ids : List Int) :
    BankState × (Bool × String) :=
  let kept := keptIds ids
  if kept.isEmpty then (s, (false, "Which check?"))
  else
    let r := acceptLoop user_id s kept
    (r.1, (true, String.intercalate " | " r.2))

/-- `TransactionManager._execute_deny_check`, batch path. -/
def execute_deny_list (s : BankState) (user_id : Int) (ids : List Int) :
    BankState × (Bool × String) :=
  let kept := keptIds ids
  if kept.isEmpty then (s, (false, "Which check?"))
  else
    let r := denyLoop user_id s kept
    (r.1, (true, String.intercalate " | " r.2))

/-- `TransactionManager._execute_revoke_operation`, batch path: overall
success is "at least one per-check success". -/
def execute_revoke_list (s : BankState) (user_id now : Int) (ids : List Int) :
    BankState × (Bool × String) :=
  let kept := keptIds ids
  if kept.isEmpty then (s, (false, "Which check number?"))
  else
    let r := revokeLoop user_id now s kept
    (r.1, (r.2.any (fun e => e.1), String.intercalate " | " (r.2.map (fun e => e.2))))

/-- One lifecycle engine call, for reasoning about arbitrary operation
sequences. -/
inductive LifecycleOp where
  | issue (issuer : Int) (payee : String) (amount : Int) (now : Int)
      (custom : Option Int) (days : Int)
  | accept (user cid : Int)
  | acceptByIssuer (user : Int) (issuer : String)
  | deny (user cid : Int)
  | denyByIssuer (user : Int) (issuer : String)
  | forward (user cid : Int) (payee : String) (now : Int)
  | cancelForward (user cid now : Int)
  | cancelIssuance (user cid now : Int)
  | revokeDecision (user cid : Int)
deriving Repr

/-- The state reached by one lifecycle operation. -/
def applyOp (s : BankState) : LifecycleOp → BankState
  | .issue issuer payee amount now custom days =>
      (issue_check s issuer payee amount now custom days).2
  | .accept user cid => (accept_check s user cid).2
  | .acceptByIssuer user issuer => (accept_check_by_issuer s user issuer).2
  | .deny user cid => (deny_check s user cid).2
  | .denyByIssuer user issuer => (deny_check_by_issuer s user issuer).2
  | .forward user cid payee now => (forward_check s user cid payee now).2
  | .cancelForward user cid now => (cancel_forward s user cid now).2
  | .cancelIssuance user cid now => (cancel_issuance s user cid now).2
  | .revokeDecision user cid => (revoke_incoming_decision s user cid).2

/-- The state reached by a sequence of lifecycle operations. -/
def applyOps (s : BankState) (ops : List LifecycleOp) : BankState :=
  ops.foldl applyOp s

/-! Concrete demonstration stores, used when instantiating theorems. -/

/-- A store holding one party and no checks. -/
def demoBase : BankState := ⟨[⟨1, "Ann", 0⟩], [], 2, 1⟩

/-- Ann (party 1) issues a check for 100 to "Bob" at time 0: the resolver
creates Bob as party 2, the check is row 1, `PENDING`, `sender_id = 1`. -/
def demoIssued : BankState := (issue_check demoBase 1 "Bob" 100 0 none 0).2

/-- Bob accepts check 1: `ACCEPTED`, `sender_id` cleared. -/
def demoAccepted : BankState := (accept_check demoIssued 2 1).2

/-- Bob forwards check 1 to "Carol" at time 10: Carol becomes party 3, the
same row turns `PENDING` with `payee_id = 3`, `sender_id = some 2`,
`issued_at = some 10`. -/
def demoForwarded : BankState := (forward_check demoAccepted 2 1 "Carol" 10).2

/-! Bridging lemmas between the boolean row selectors and their logical
readings, and structural facts about the resolver. -/

lemma forwardSel_iff (uid cid : Int) (c : Check) :
    forwardSel uid cid c = true ↔
      c.id = cid ∧ c.payee_id = uid ∧ c.status = Status.ACCEPTED := by
  simp [forwardSel, and_assoc]

lemma acceptSel_iff (uid cid : Int) (c : Check) :
    acceptSel uid cid c = true ↔
      c.id = cid ∧ c.payee_id = uid ∧
        (c.status = Status.PENDING ∨ c.status = Status.DENIED) := by
  simp [acceptSel, and_assoc]

lemma acceptByIssuerSel_iff (uid cand : Int) (c : Check) :
    acceptByIssuerSel uid cand c = true ↔
      c.payee_id = uid ∧ (c.status = Status.PENDING ∨ c.status = Status.DENIED) ∧
        c.sender_id = some cand := by
  simp [acceptByIssuerSel, and_assoc]

lemma denySel_iff (uid cid : Int) (c : Check) :
    denySel uid cid c = true ↔
      c.id = cid ∧ c.payee_id = uid ∧
        (c.status = Status.PENDING ∨ c.status = Status.ACCEPTED) := by
  simp [denySel, and_assoc]

lemma cancelFwdSel_iff (uid cid : Int) (c : Check) :
    cancelFwdSel uid cid c = true ↔
      c.id = cid ∧ c.sender_id = some uid ∧ c.status = Status.PENDING := by
  simp [cancelFwdSel, and_assoc]

lemma cancelIssSel_iff (uid cid : Int) (c : Check) :
    cancelIssSel uid cid c = true ↔
      c.id = cid ∧ c.issuer_id = uid ∧ c.status = Status.PENDING := by
  simp [cancelIssSel, and_assoc]

lemma resolveUser_checks (s : BankState) (n : String) :
    (resolveUser s n).2.checks = s.checks := by
  unfold resolveUser
  cases h : s.users.find? (exactNameMatch (cleanedName n)) with
  | some u => rfl
  | none =>
    rcases hf : s.users.filter (fuzzyNameMatch (cleanedName n)) with _ | ⟨u, _ | ⟨v, rest⟩⟩ <;> rfl

/-- C1: on a check the caller holds with status `ACCEPTED`, `forward`
succeeds and mutates that same row in place — `payee_id` becomes the
resolved new payee, `sender_id` the caller, `status` `PENDING`, `issued_at`
the current time — while `id`, `issuer_id`, `amount`, `maturity_date` and
`parent_check_id` are untouched, no row is added, and every other row is
unchanged; with no matching check the call fails and the store is
unchanged. -/
theorem forward_transfers_ownership_in_place (s : BankState) (uid cid : Int)
    (name : String) (now : Int) :
    ((∃ c ∈ s.checks, c.id = cid ∧ c.payee_id = uid ∧ c.status = Status.ACCEPTED) →
      (forward_check s uid cid name now).1.ok = true ∧
      (forward_check s uid cid name now).1.cid = some cid ∧
      (forward_check s uid cid name now).2.checks.length = s.checks.length ∧
      (∀ (i : Nat) (h1 : i < s.checks.length)
          (h2 : i < (forward_check s uid cid name now).2.checks.length),
        ((s.checks.get ⟨i, h1⟩).id = cid →
          ((forward_check s uid cid name now).2.checks.get ⟨i, h2⟩).payee_id = (resolveUser s name).1 ∧
          ((forward_check s uid cid name now).2.checks.get ⟨i, h2⟩).sender_id = some uid ∧
          ((forward_check s uid cid name now).2.checks.get ⟨i, h2⟩).status = Status.PENDING ∧
          ((forward_check s uid cid name now).2.checks.get ⟨i, h2⟩).issued_at = some now ∧
          ((forward_check s uid cid name now).2.checks.get ⟨i, h2⟩).id = (s.checks.get ⟨i, h1⟩).id ∧
          ((forward_check s uid cid name now).2.checks.get ⟨i, h2⟩).issuer_id = (s.checks.get ⟨i, h1⟩).issuer_id ∧
          ((forward_check s uid cid name now).2.checks.get ⟨i, h2⟩).amount = (s.checks.get ⟨i, h1⟩).amount ∧
          ((forward_check s uid cid name now).2.checks.get ⟨i, h2⟩).maturity_date = (s.checks.get ⟨i, h1⟩).maturity_date ∧
          ((forward_check s uid cid name now).2.checks.get ⟨i, h2⟩).parent_check_id = (s.checks.get ⟨i, h1⟩).parent_check_id) ∧
        ((s.checks.get ⟨i, h1⟩).id ≠ cid →
          (forward_check s uid cid name now).2.checks.get ⟨i, h2⟩ = s.checks.get ⟨i, h1⟩))) ∧
    ((¬ ∃ c ∈ s.checks, c.id = cid ∧ c.payee_id = uid ∧ c.status = Status.ACCEPTED) →
      forward_check s uid cid name now =
        (⟨false, "Check not found, not accepted, or you do not own it.", none⟩, s)) := by
  constructor
  · rintro ⟨c, hc, hcid, hpayee, hstat⟩
    have hs : (s.checks.find? (forwardSel uid cid)).isSome :=
      List.find?_isSome.mpr ⟨c, hc, (forwardSel_iff uid cid c).mpr ⟨hcid, hpayee, hstat⟩⟩
    cases hfind : s.checks.find? (forwardSel uid cid) with
    | none => rw [hfind] at hs; simp at hs
    | some c0 =>
      have hchk : (forward_check s uid cid name now).2.checks =
          s.checks.map (forwardUpdate cid (resolveUser s name).1 uid now) := by
        simp only [forward_check]
        rw [hfind]
        simp [resolveUser_checks]
      refine ⟨?_, ?_, ?_, ?_⟩
      · simp only [forward_check]; rw [hfind]
      · simp only [forward_check]; rw [hfind]
      · rw [hchk]; simp
      · intro i h1 h2
        have hget : (forward_check s uid cid name now).2.checks.get ⟨i, h2⟩ =
            forwardUpdate cid (resolveUser s name).1 uid now (s.checks.get ⟨i, h1⟩) := by
          simp only [List.get_eq_getElem, hchk, List.getElem_map]
        rw [hget]
        simp only [List.get_eq_getElem] at *
        constructor
        · intro hid
          simp [forwardUpdate, hid]
        · intro hid
          simp [forwardUpdate, hid]
  · intro hnone
    have hfind : s.checks.find? (forwardSel uid cid) = none := by
      rw [List.find?_eq_none]
      intro x hx hsel
      exact hnone ⟨x, hx, (forwardSel_iff uid cid x).mp hsel⟩
    simp only [forward_check]
    rw [hfind]

/-- Witness for C1: after Ann issues to Bob and Bob accepts, Bob's forward
of check 1 to Carol succeeds; a stranger's (party 7's) forward of the same
check fails and leaves the store untouched. -/
theorem forward_transfers_ownership_in_place_witness :
    (forward_check demoAccepted 2 1 "Carol" 10).1.ok = true ∧
    forward_check demoAccepted 7 1 "Carol" 10 =
      (⟨false, "Check not found, not accepted, or you do not own it.", none⟩, demoAccepted) := by
  constructor
  · exact ((forward_transfers_ownership_in_place demoAccepted 2 1 "Carol" 10).1 (by decide)).1
  · exact (forward_transfers_ownership_in_place demoAccepted 7 1 "Carol" 10).2 (by decide)

/-- C2: `accept` by check id succeeds exactly when a check with that id has
`payee_id` = caller and status in {PENDING, DENIED}; by issuer name, exactly
when such a check has `sender_id` equal to the resolved identity.  Success
sets `status = ACCEPTED` and clears `sender_id` to null on that row and
changes nothing else; failure is an ordinary result value that leaves the
check store unchanged, so a second accept of the same check fails with the
already-accepted store untouched. -/
theorem accept_eligibility_and_effects (s : BankState) (uid cid : Int) (name : String) :
    ((accept_check s uid cid).1.ok = true ↔
      ∃ c ∈ s.checks, c.id = cid ∧ c.payee_id = uid ∧
        (c.status = Status.PENDING ∨ c.status = Status.DENIED)) ∧
    ((accept_check s uid cid).1.ok = false →
      accept_check s uid cid =
        (⟨false, "Check not found or not available to accept.", none⟩, s)) ∧
    ((accept_check s uid cid).1.ok = true →
      (accept_check s uid cid).2.checks.length = s.checks.length ∧
      (∀ (i : Nat) (h1 : i < s.checks.length)
          (h2 : i < (accept_check s uid cid).2.checks.length),
        ((s.checks.get ⟨i, h1⟩).id = cid →
          (accept_check s uid cid).2.checks.get ⟨i, h2⟩ =
            { s.checks.get ⟨i, h1⟩ with status := Status.ACCEPTED, sender_id := none }) ∧
        ((s.checks.get ⟨i, h1⟩).id ≠ cid →
          (accept_check s uid cid).2.checks.get ⟨i, h2⟩ = s.checks.get ⟨i, h1⟩))) ∧
    (((accept_check_by_issuer s uid name).1.ok = true ↔
      ∃ c ∈ s.checks, c.payee_id = uid ∧
        (c.status = Status.PENDING ∨ c.status = Status.DENIED) ∧
        c.sender_id = some (resolveUser s name).1) ∧
     ((accept_check_by_issuer s uid name).1.ok = false →
      (accept_check_by_issuer s uid name).2.checks = s.checks)) ∧
    ((accept_check s uid cid).1.ok = true →
      (accept_check (accept_check s uid cid).2 uid cid).1.ok = false ∧
      (accept_check (accept_check s uid cid).2 uid cid).2 = (accept_check s uid cid).2) := by
  have hbyid : ∀ (t : BankState),
      ((accept_check t uid cid).1.ok = true ↔
        ∃ c ∈ t.checks, c.id = cid ∧ c.payee_id = uid ∧
          (c.status = Status.PENDING ∨ c.status = Status.DENIED)) := by
    intro t
    constructor
    · intro hok
      cases hfind : t.checks.find? (acceptSel uid cid) with
      | none => simp only [accept_check] at hok; rw [hfind] at hok; simp at hok
      | some c0 =>
        exact ⟨c0, List.mem_of_find?_eq_some hfind,
          (acceptSel_iff uid cid c0).mp (List.find?_some hfind)⟩
    · rintro ⟨c, hc, hsel⟩
      have hs : (t.checks.find? (acceptSel uid cid)).isSome :=
        List.find?_isSome.mpr ⟨c, hc, (acceptSel_iff uid cid c).mpr hsel⟩
      cases hfind : t.checks.find? (acceptSel uid cid) with
      | none => rw [hfind] at hs; simp at hs
      | some c0 => simp only [accept_check]; rw [hfind]
  have hfail : ∀ (t : BankState), (accept_check t uid cid).1.ok = false →
      accept_check t uid cid =
        (⟨false, "Check not found or not available to accept.", none⟩, t) := by
    intro t hok
    cases hfind : t.checks.find? (acceptSel uid cid) with
    | none => simp only [accept_check]; rw [hfind]
    | some c0 => simp only [accept_check] at hok; rw [hfind] at hok; simp at hok
  refine ⟨hbyid s, hfail s, ?_, ?_, ?_⟩
  · intro hok
    cases hfind : s.checks.find? (acceptSel uid cid) with
    | none => simp only [accept_check] at hok; rw [hfind] at hok; simp at hok
    | some c0 =>
      have hc0 := (acceptSel_iff uid cid c0).mp (List.find?_some hfind)
      have hchk : (accept_check s uid cid).2.checks = s.checks.map (acceptUpdate cid) := by
        simp only [accept_check]
        rw [hfind]
        simp [hc0.1]
      constructor
      · rw [hchk]; simp
      · intro i h1 h2
        have hget : (accept_check s uid cid).2.checks.get ⟨i, h2⟩ =
            acceptUpdate cid (s.checks.get ⟨i, h1⟩) := by
          simp only [List.get_eq_getElem, hchk, List.getElem_map]
        rw [hget]
        simp only [List.get_eq_getElem] at *
        constructor
        · intro hid; simp [acceptUpdate, hid]
        · intro hid; simp [acceptUpdate, hid]
  · constructor
    · constructor
      · intro hok
        cases hfind : (resolveUser s name).2.checks.find?
            (acceptByIssuerSel uid (resolveUser s name).1) with
        | none =>
          simp only [accept_check_by_issuer] at hok; rw [hfind] at hok; simp at hok
        | some c0 =>
          have hmem := List.mem_of_find?_eq_some hfind
          rw [resolveUser_checks] at hmem
          exact ⟨c0, hmem,
            (acceptByIssuerSel_iff uid (resolveUser s name).1 c0).mp (List.find?_some hfind)⟩
      · rintro ⟨c, hc, hsel⟩
        have hc' : c ∈ (resolveUser s name).2.checks := by rw [resolveUser_checks]; exact hc
        have hs2 : ((resolveUser s name).2.checks.find?
            (acceptByIssuerSel uid (resolveUser s name).1)).isSome :=
          List.find?_isSome.mpr ⟨c, hc',
            (acceptByIssuerSel_iff uid (resolveUser s name).1 c).mpr hsel⟩
        cases hfind : (resolveUser s name).2.checks.find?
            (acceptByIssuerSel uid (resolveUser s name).1) with
        | none => rw [hfind] at hs2; simp at hs2
        | some c0 => simp only [accept_check_by_issuer]; rw [hfind]
    · intro hok
      cases hfind : (resolveUser s name).2.checks.find?
          (acceptByIssuerSel uid (resolveUser s name).1) with
      | none =>
        simp only [accept_check_by_issuer]
        rw [hfind]
        simp [resolveUser_checks]
      | some c0 =>
        simp only [accept_check_by_issuer] at hok; rw [hfind] at hok; simp at hok
  · intro hok
    have hok2 : (accept_check (accept_check s uid cid).2 uid cid).1.ok = false := by
      by_contra hcon
      rw [Bool.not_eq_false] at hcon
      obtain ⟨c, hc, hid, hpay, hstat⟩ := (hbyid (accept_check s uid cid).2).mp hcon
      cases hfind : s.checks.find? (acceptSel uid cid) with
      | none => simp only [accept_check] at hok; rw [hfind] at hok; simp at hok
      | some c0 =>
        have hc00 := (acceptSel_iff uid cid c0).mp (List.find?_some hfind)
        have hchk : (accept_check s uid cid).2.checks = s.checks.map (acceptUpdate cid) := by
          simp only [accept_check]
          rw [hfind]
          simp [hc00.1]
        rw [hchk] at hc
        obtain ⟨y, hy, hyc⟩ := List.mem_map.mp hc
        by_cases hyid : y.id = cid
        · rw [← hyc] at hstat
          simp [acceptUpdate, hyid] at hstat
        · rw [← hyc] at hid
          simp [acceptUpdate, hyid] at hid
    exact ⟨hok2, by rw [hfail _ hok2]⟩

/-- Witness for C2: Bob accepts check 1 of the demonstration store once with
success; the second accept fails and leaves the store unchanged. -/
theorem accept_eligibility_and_effects_witness :
    (accept_check demoIssued 2 1).1.ok = true ∧
    (accept_check (accept_check demoIssued 2 1).2 2 1).1.ok = false ∧
    (accept_check (accept_check demoIssued 2 1).2 2 1).2 = (accept_check demoIssued 2 1).2 := by
  have h1 := (accept_eligibility_and_effects demoIssued 2 1 "Ann").1.mpr (by decide)
  have h2 := (accept_eligibility_and_effects demoIssued 2 1 "Ann").2.2.2.2 h1
  exact ⟨h1, h2.1, h2.2⟩


/-- C3: `cancel_forward` succeeds exactly when the check has `sender_id` =
caller, `status = PENDING` and at most one hour has elapsed since its
(parseable) `issued_at`; success restores `payee_id` = caller and
`status = ACCEPTED` and sets `sender_id` to the caller exactly when the
caller is the original issuer, else to null; in every other case the call
fails and the store is unchanged. -/
theorem cancel_forward_restores_holder (s : BankState) (uid cid now : Int)
    (hpar : ∀ c ∈ s.checks, c.id = cid → c.issued_at ≠ none)
    (huniq : ∀ c1 ∈ s.checks, ∀ c2 ∈ s.checks, c1.id = c2.id → c1 = c2) :
    ((cancel_forward s uid cid now).1.1 = true ↔
      ∃ c ∈ s.checks, c.id = cid ∧ c.sender_id = some uid ∧ c.status = Status.PENDING ∧
        ∃ t, c.issued_at = some t ∧ now - t ≤ 3600) ∧
    ((cancel_forward s uid cid now).1.1 = false → (cancel_forward s uid cid now).2 = s) ∧
    ((cancel_forward s uid cid now).1.1 = true →
      (cancel_forward s uid cid now).2.checks.length = s.checks.length ∧
      (∀ (i : Nat) (h1 : i < s.checks.length)
          (h2 : i < (cancel_forward s uid cid now).2.checks.length),
        ((s.checks.get ⟨i, h1⟩).id = cid →
          (cancel_forward s uid cid now).2.checks.get ⟨i, h2⟩ =
            { s.checks.get ⟨i, h1⟩ with
                payee_id := uid,
                sender_id := (if (s.checks.get ⟨i, h1⟩).issuer_id = uid then some uid else none),
                status := Status.ACCEPTED }) ∧
        ((s.checks.get ⟨i, h1⟩).id ≠ cid →
          (cancel_forward s uid cid now).2.checks.get ⟨i, h2⟩ = s.checks.get ⟨i, h1⟩))) := by
  refine ⟨⟨?_, ?_⟩, ?_, ?_⟩
  · intro hok
    cases hfind : s.checks.find? (cancelFwdSel uid cid) with
    | none => simp only [cancel_forward] at hok; rw [hfind] at hok; simp at hok
    | some c0 =>
      have hmem := List.mem_of_find?_eq_some hfind
      have hsel := (cancelFwdSel_iff uid cid c0).mp (List.find?_some hfind)
      cases hw : windowExpired c0.issued_at now with
      | true =>
        simp only [cancel_forward] at hok
        rw [hfind] at hok
        simp [hw] at hok
      | false =>
        cases hat : c0.issued_at with
        | none => exact absurd hat (hpar c0 hmem hsel.1)
        | some t =>
          refine ⟨c0, hmem, hsel.1, hsel.2.1, hsel.2.2, t, hat, ?_⟩
          rw [hat] at hw
          simp [windowExpired] at hw
          omega
  · rintro ⟨c, hc, hid, hsend, hstat, t, hat, hle⟩
    have hs : (s.checks.find? (cancelFwdSel uid cid)).isSome :=
      List.find?_isSome.mpr ⟨c, hc, (cancelFwdSel_iff uid cid c).mpr ⟨hid, hsend, hstat⟩⟩
    cases hfind : s.checks.find? (cancelFwdSel uid cid) with
    | none => rw [hfind] at hs; simp at hs
    | some c0 =>
      have hmem := List.mem_of_find?_eq_some hfind
      have hsel := (cancelFwdSel_iff uid cid c0).mp (List.find?_some hfind)
      have hc0 : c0 = c := huniq c0 hmem c hc (by rw [hsel.1, hid])
      have hw : windowExpired c0.issued_at now = false := by
        rw [hc0, hat]
        simp [windowExpired]
        omega
      simp only [cancel_forward]
      rw [hfind]
      simp [hw]
  · intro hok
    cases hfind : s.checks.find? (cancelFwdSel uid cid) with
    | none => simp only [cancel_forward]; rw [hfind]
    | some c0 =>
      cases hw : windowExpired c0.issued_at now with
      | true =>
        simp only [cancel_forward]
        rw [hfind]
        simp [hw]
      | false =>
        simp only [cancel_forward] at hok
        rw [hfind] at hok
        simp [hw] at hok
  · intro hok
    cases hfind : s.checks.find? (cancelFwdSel uid cid) with
    | none => simp only [cancel_forward] at hok; rw [hfind] at hok; simp at hok
    | some c0 =>
      cases hw : windowExpired c0.issued_at now with
      | true =>
        simp only [cancel_forward] at hok
        rw [hfind] at hok
        simp [hw] at hok
      | false =>
        have hmem := List.mem_of_find?_eq_some hfind
        have hsel := (cancelFwdSel_iff uid cid c0).mp (List.find?_some hfind)
        have hchk : (cancel_forward s uid cid now).2.checks =
            s.checks.map (cancelFwdUpdate cid uid
              (if c0.issuer_id == uid then some uid else none)) := by
          simp only [cancel_forward]
          rw [hfind]
          simp [hw]
        constructor
        · rw [hchk]; simp
        · intro i h1 h2
          have hget : (cancel_forward s uid cid now).2.checks.get ⟨i, h2⟩ =
              cancelFwdUpdate cid uid (if c0.issuer_id == uid then some uid else none)
                (s.checks.get ⟨i, h1⟩) := by
            simp only [List.get_eq_getElem, hchk, List.getElem_map]
          rw [hget]
          simp only [List.get_eq_getElem] at *
          constructor
          · intro hid
            have hx : s.checks[i] ∈ s.checks := List.getElem_mem h1
            have hxc0 : s.checks[i] = c0 := huniq _ hx c0 hmem (by rw [hid, hsel.1])
            simp [cancelFwdUpdate, hxc0, hsel.1]
          · intro hid
            simp [cancelFwdUpdate, hid]

/-- A store holding one check whose stored `issued_at` text does not parse
as an ISO timestamp. -/
def demoBadStamp : BankState :=
  ⟨[⟨1, "Ann", 0⟩, ⟨2, "Bob", 0⟩],
   [⟨1, 1, 2, some 1, 50, Status.PENDING, none, 0, none⟩], 3, 2⟩

/-- Witness for C3: in the forwarded demonstration store, Bob (the sender)
cancels the forward within the hour and succeeds. -/
theorem cancel_forward_restores_holder_witness :
    (cancel_forward demoForwarded 2 1 100).1.1 = true := by
  exact (cancel_forward_restores_holder demoForwarded 2 1 100 (by decide) (by decide)).1.mpr
    (by decide)

/-- C5: with a matching pending forwarded check, `cancel_forward` succeeds
at exactly one hour after `issued_at` and fails with the expired-window
message for any strictly greater elapsed time, leaving the store
unchanged. -/
theorem cancel_forward_window_boundary (s : BankState) (uid cid now t : Int) (c : Check)
    (hfind : s.checks.find? (cancelFwdSel uid cid) = some c)
    (hat : c.issued_at = some t) :
    (now - t = 3600 → (cancel_forward s uid cid now).1.1 = true) ∧
    (now - t > 3600 → cancel_forward s uid cid now =
      ((false, "Cannot cancel: 1-hour revocation window has expired."), s)) := by
  constructor
  · intro heq
    have hw : windowExpired c.issued_at now = false := by
      rw [hat]; simp [windowExpired]; omega
    simp only [cancel_forward]; rw [hfind]; simp [hw]
  · intro hgt
    have hw : windowExpired c.issued_at now = true := by
      rw [hat]; simp [windowExpired]; omega
    simp only [cancel_forward]; rw [hfind]; simp [hw]

/-- Witness for C5: forwarding stamped the clock at 10, so cancelling at
3610 (exactly one hour) succeeds and at 3611 fails as expired. -/
theorem cancel_forward_window_boundary_witness :
    (cancel_forward demoForwarded 2 1 3610).1.1 = true ∧
    cancel_forward demoForwarded 2 1 3611 =
      ((false, "Cannot cancel: 1-hour revocation window has expired."), demoForwarded) := by
  constructor
  · exact (cancel_forward_window_boundary demoForwarded 2 1 3610 10
      ⟨1, 1, 3, some 2, 100, Status.PENDING, some 10, 0, none⟩ (by decide) (by decide)).1 (by decide)
  · exact (cancel_forward_window_boundary demoForwarded 2 1 3611 10
      ⟨1, 1, 3, some 2, 100, Status.PENDING, some 10, 0, none⟩ (by decide) (by decide)).2 (by decide)

/-- C10: when the located check's stored `issued_at` does not parse, both
`cancel_forward` and `cancel_issuance` silently skip the one-hour window
test and succeed at any elapsed time. -/
theorem unparseable_timestamp_skips_window (s : BankState) (uid cid now : Int) (c : Check) :
    (s.checks.find? (cancelFwdSel uid cid) = some c → c.issued_at = none →
      (cancel_forward s uid cid now).1.1 = true) ∧
    (s.checks.find? (cancelIssSel uid cid) = some c → c.issued_at = none →
      (cancel_issuance s uid cid now).1.1 = true) := by
  constructor
  · intro hfind hat
    have hw : windowExpired c.issued_at now = false := by rw [hat]; rfl
    simp only [cancel_forward]; rw [hfind]; simp [hw]
  · intro hfind hat
    have hw : windowExpired c.issued_at now = false := by rw [hat]; rfl
    simp only [cancel_issuance]; rw [hfind]; simp [hw]

/-- Witness for C10: with an unparseable timestamp both cancellations
succeed arbitrarily far in the future. -/
theorem unparseable_timestamp_skips_window_witness :
    (cancel_forward demoBadStamp 1 1 999999999).1.1 = true ∧
    (cancel_issuance demoBadStamp 1 1 999999999).1.1 = true := by
  constructor
  · exact (unparseable_timestamp_skips_window demoBadStamp 1 1 999999999
      ⟨1, 1, 2, some 1, 50, Status.PENDING, none, 0, none⟩).1 (by decide) (by decide)
  · exact (unparseable_timestamp_skips_window demoBadStamp 1 1 999999999
      ⟨1, 1, 2, some 1, 50, Status.PENDING, none, 0, none⟩).2 (by decide) (by decide)


lemma map_ids_of_update (l : List Check) (f : Check → Check)
    (hf : ∀ x, (f x).id = x.id) :
    (l.map f).map (fun c => c.id) = l.map (fun c => c.id) := by
  induction l with
  | nil => rfl
  | cons a l ih => simp only [List.map_cons, hf, ih]

lemma acceptUpdate_id (cid : Int) (x : Check) : (acceptUpdate cid x).id = x.id := by
  simp only [acceptUpdate]; split <;> rfl

lemma denyUpdate_id (cid : Int) (x : Check) : (denyUpdate cid x).id = x.id := by
  simp only [denyUpdate]; split <;> rfl

lemma forwardUpdate_id (cid p uid now : Int) (x : Check) :
    (forwardUpdate cid p uid now x).id = x.id := by
  simp only [forwardUpdate]; split <;> rfl

lemma cancelFwdUpdate_id (cid uid : Int) (ns : Option Int) (x : Check) :
    (cancelFwdUpdate cid uid ns x).id = x.id := by
  simp only [cancelFwdUpdate]; split <;> rfl

lemma revokeUpdate_id (cid : Int) (x : Check) : (revokeUpdate cid x).id = x.id := by
  simp only [revokeUpdate]; split <;> rfl

/-- Counterexample to C4 as stated: in the demonstration store the check
was issued by Ann, accepted by Bob and then forwarded on to Carol — so it is
not a "still-untouched issuance" (it is again `PENDING` with
`sender_id = some 2` distinct from its issuer and `payee_id = 3` in Carol's
custody) — yet Ann's `cancel_issuance` succeeds and physically deletes the
row. -/
theorem cancel_issuance_deletes_forwarded_check :
    (∃ c ∈ demoForwarded.checks, c.id = 1 ∧ c.status = Status.PENDING ∧
      c.issuer_id = 1 ∧ c.payee_id = 3 ∧ c.sender_id = some 2) ∧
    (cancel_issuance demoForwarded 1 1 20).1.1 = true ∧
    (cancel_issuance demoForwarded 1 1 20).2.checks = [] := by decide

/-- C4 (amended): a check row is physically deleted only by
`cancel_issuance`, and only when `issuer_id` = caller and
`status = PENDING` with the one-hour window not expired (the window test
being skipped when `issued_at` does not parse) — which does not exclude a
check that was accepted and forwarded on and is again `PENDING`; accept,
deny, forward, cancel_forward and revoke_incoming_decision preserve the
full id sequence of the store, and a failed `cancel_issuance` changes
nothing. -/
theorem deletion_only_by_cancel_issuance (s : BankState) (uid cid now : Int)
    (name : String) :
    ((accept_check s uid cid).2.checks.map (fun c => c.id) = s.checks.map (fun c => c.id)) ∧
    ((accept_check_by_issuer s uid name).2.checks.map (fun c => c.id) = s.checks.map (fun c => c.id)) ∧
    ((deny_check s uid cid).2.checks.map (fun c => c.id) = s.checks.map (fun c => c.id)) ∧
    ((deny_check_by_issuer s uid name).2.checks.map (fun c => c.id) = s.checks.map (fun c => c.id)) ∧
    ((forward_check s uid cid name now).2.checks.map (fun c => c.id) = s.checks.map (fun c => c.id)) ∧
    ((cancel_forward s uid cid now).2.checks.map (fun c => c.id) = s.checks.map (fun c => c.id)) ∧
    ((revoke_incoming_decision s uid cid).2.checks.map (fun c => c.id) = s.checks.map (fun c => c.id)) ∧
    ((cancel_issuance s uid cid now).1.1 = false → (cancel_issuance s uid cid now).2 = s) ∧
    ((cancel_issuance s uid cid now).1.1 = true →
      (∃ c ∈ s.checks, c.id = cid ∧ c.issuer_id = uid ∧ c.status = Status.PENDING ∧
        (c.issued_at = none ∨ ∃ t, c.issued_at = some t ∧ now - t ≤ 3600)) ∧
      (cancel_issuance s uid cid now).2.checks = s.checks.filter (fun x => !(x.id == cid))) := by
  refine ⟨?_, ?_, ?_, ?_, ?_, ?_, ?_, ?_, ?_⟩
  · cases hfind : s.checks.find? (acceptSel uid cid) with
    | none => simp only [accept_check]; rw [hfind]
    | some c0 =>
      simp only [accept_check]; rw [hfind]
      exact map_ids_of_update s.checks (acceptUpdate c0.id) (acceptUpdate_id c0.id)
  · cases hfind : (resolveUser s name).2.checks.find?
        (acceptByIssuerSel uid (resolveUser s name).1) with
    | none =>
      simp only [accept_check_by_issuer]; rw [hfind]
      simp [resolveUser_checks]
    | some c0 =>
      simp only [accept_check_by_issuer]; rw [hfind]
      simp only [resolveUser_checks]
      exact map_ids_of_update s.checks (acceptUpdate c0.id) (acceptUpdate_id c0.id)
  · cases hfind : s.checks.find? (denySel uid cid) with
    | none => simp only [deny_check]; rw [hfind]
    | some c0 =>
      simp only [deny_check]; rw [hfind]
      exact map_ids_of_update s.checks (denyUpdate c0.id) (denyUpdate_id c0.id)
  · cases hfind : (resolveUser s name).2.checks.find?
        (denyByIssuerSel uid (resolveUser s name).1) with
    | none =>
      simp only [deny_check_by_issuer]; rw [hfind]
      simp [resolveUser_checks]
    | some c0 =>
      simp only [deny_check_by_issuer]; rw [hfind]
      simp only [resolveUser_checks]
      exact map_ids_of_update s.checks (denyUpdate c0.id) (denyUpdate_id c0.id)
  · cases hfind : s.checks.find? (forwardSel uid cid) with
    | none => simp only [forward_check]; rw [hfind]
    | some c0 =>
      simp only [forward_check]; rw [hfind]
      simp only [resolveUser_checks]
      exact map_ids_of_update s.checks _ (forwardUpdate_id cid (resolveUser s name).1 uid now)
  · cases hfind : s.checks.find? (cancelFwdSel uid cid) with
    | none => simp only [cancel_forward]; rw [hfind]
    | some c0 =>
      cases hw : windowExpired c0.issued_at now with
      | true => simp only [cancel_forward]; rw [hfind]; simp [hw]
      | false =>
        simp only [cancel_forward]; rw [hfind]; simp only [hw]
        simp only [Bool.false_eq_true, if_false]
        exact map_ids_of_update s.checks _
          (cancelFwdUpdate_id cid uid (if c0.issuer_id == uid then some uid else none))
  · cases hfind : s.checks.find? (fun c => c.id == cid && c.payee_id == uid) with
    | none => simp only [revoke_incoming_decision]; rw [hfind]
    | some c0 =>
      simp only [revoke_incoming_decision]; rw [hfind]
      exact map_ids_of_update s.checks _ (revokeUpdate_id cid)
  · intro hok
    cases hfind : s.checks.find? (cancelIssSel uid cid) with
    | none => simp only [cancel_issuance]; rw [hfind]
    | some c0 =>
      cases hw : windowExpired c0.issued_at now with
      | true => simp only [cancel_issuance]; rw [hfind]; simp [hw]
      | false =>
        simp only [cancel_issuance] at hok; rw [hfind] at hok; simp [hw] at hok
  · intro hok
    cases hfind : s.checks.find? (cancelIssSel uid cid) with
    | none => simp only [cancel_issuance] at hok; rw [hfind] at hok; simp at hok
    | some c0 =>
      cases hw : windowExpired c0.issued_at now with
      | true => simp only [cancel_issuance] at hok; rw [hfind] at hok; simp [hw] at hok
      | false =>
        have hmem := List.mem_of_find?_eq_some hfind
        have hsel := (cancelIssSel_iff uid cid c0).mp (List.find?_some hfind)
        constructor
        · refine ⟨c0, hmem, hsel.1, hsel.2.1, hsel.2.2, ?_⟩
          cases hat : c0.issued_at with
          | none => exact Or.inl rfl
          | some t =>
            refine Or.inr ⟨t, rfl, ?_⟩
            rw [hat] at hw
            simp [windowExpired] at hw
            omega
        · simp only [cancel_issuance]; rw [hfind]; simp [hw]

/-- Witness for C4 (amended): accept preserves the row ids, and a
stranger's `cancel_issuance` fails leaving the store unchanged. -/
theorem deletion_only_by_cancel_issuance_witness :
    (accept_check demoIssued 2 1).2.checks.map (fun c => c.id) =
      demoIssued.checks.map (fun c => c.id) ∧
    (cancel_issuance demoIssued 5 1 0).1.1 = false ∧
    (cancel_issuance demoIssued 5 1 0).2 = demoIssued := by
  refine ⟨(deletion_only_by_cancel_issuance demoIssued 2 1 0 "Bob").1, by decide, ?_⟩
  exact (deletion_only_by_cancel_issuance demoIssued 5 1 0 "Bob").2.2.2.2.2.2.2.1 (by decide)


/-- C6: the resolver follows the three-step algorithm — return a
case-insensitive exact match when one exists; else return the unique
case-insensitive containment match; else (zero or several containment
matches) create and return a brand-new party with the trimmed name and zero
balance.  With only "Alice Corporation" present, "Alice" resolves to it;
with "Alice Corp" and "Alice Corp West" both present, "Alice" creates a
third, distinct party. -/
theorem resolver_three_step (s : BankState) (name : String) :
    ((∃ u ∈ s.users, exactNameMatch (cleanedName name) u = true) →
      (resolveUser s name).2 = s ∧
      ∃ u ∈ s.users, exactNameMatch (cleanedName name) u = true ∧
        (resolveUser s name).1 = u.id) ∧
    ((¬ ∃ u ∈ s.users, exactNameMatch (cleanedName name) u = true) →
      ∀ u, s.users.filter (fuzzyNameMatch (cleanedName name)) = [u] →
        resolveUser s name = (u.id, s)) ∧
    ((¬ ∃ u ∈ s.users, exactNameMatch (cleanedName name) u = true) →
      (s.users.filter (fuzzyNameMatch (cleanedName name))).length ≠ 1 →
      resolveUser s name =
        (s.nextUserId,
         { s with
             users := s.users ++
               [{ id := s.nextUserId, username := ⟨cleanedName name⟩, balance := 0 }],
             nextUserId := s.nextUserId + 1 })) ∧
    (resolveUser ⟨[⟨1, "Alice Corporation", 0⟩], [], 2, 1⟩ "Alice" =
      (1, ⟨[⟨1, "Alice Corporation", 0⟩], [], 2, 1⟩)) ∧
    ((resolveUser ⟨[⟨1, "Alice Corp", 0⟩, ⟨2, "Alice Corp West", 0⟩], [], 3, 1⟩ "Alice").1 = 3 ∧
      (resolveUser ⟨[⟨1, "Alice Corp", 0⟩, ⟨2, "Alice Corp West", 0⟩], [], 3, 1⟩ "Alice").2.users =
        [⟨1, "Alice Corp", 0⟩, ⟨2, "Alice Corp West", 0⟩, ⟨3, "Alice", 0⟩]) := by
  refine ⟨?_, ?_, ?_, by decide, by decide⟩
  · rintro ⟨u, hu, hm⟩
    have hs : (s.users.find? (exactNameMatch (cleanedName name))).isSome :=
      List.find?_isSome.mpr ⟨u, hu, hm⟩
    cases hfind : s.users.find? (exactNameMatch (cleanedName name)) with
    | none => rw [hfind] at hs; simp at hs
    | some u0 =>
      have hm0 := List.find?_some hfind
      have hmem := List.mem_of_find?_eq_some hfind
      constructor
      · simp only [resolveUser]; rw [hfind]
      · exact ⟨u0, hmem, hm0, by simp only [resolveUser]; rw [hfind]⟩
  · intro hno u hf
    have hfind : s.users.find? (exactNameMatch (cleanedName name)) = none := by
      rw [List.find?_eq_none]
      intro x hx hm
      exact hno ⟨x, hx, hm⟩
    simp only [resolveUser]
    rw [hfind, hf]
  · intro hno hlen
    have hfind : s.users.find? (exactNameMatch (cleanedName name)) = none := by
      rw [List.find?_eq_none]
      intro x hx hm
      exact hno ⟨x, hx, hm⟩
    simp only [resolveUser]
    rw [hfind]
    rcases hf : s.users.filter (fuzzyNameMatch (cleanedName name)) with _ | ⟨u, _ | ⟨v, rest⟩⟩
    · rfl
    · rw [hf] at hlen; simp at hlen
    · rfl

/-- Witness for C6: "  ANN " exact-matches Ann case-insensitively without
touching the store, and the unmatched "Zoe" is created with zero balance. -/
theorem resolver_three_step_witness :
    (resolveUser demoBase "  ANN ").2 = demoBase ∧
    resolveUser demoBase "Zoe" =
      (2, ⟨[⟨1, "Ann", 0⟩, ⟨2, "Zoe", 0⟩], [], 3, 1⟩) := by
  constructor
  · exact ((resolver_three_step demoBase "  ANN ").1 (by decide)).1
  · exact (resolver_three_step demoBase "Zoe").2.2.1 (by decide) (by decide)


/-- The three statuses the lifecycle transitions actually write. -/
def coreStatus (c : Check) : Prop :=
  c.status = Status.PENDING ∨ c.status = Status.ACCEPTED ∨ c.status = Status.DENIED

lemma mem_map_core {l : List Check} {f : Check → Check}
    (hf : ∀ x, coreStatus (f x) ∨ f x = x)
    (h : ∀ c ∈ l, coreStatus c) : ∀ c ∈ l.map f, coreStatus c := by
  intro c hc
  obtain ⟨y, hy, hyc⟩ := List.mem_map.mp hc
  rcases hf y with hcore | heq
  · rw [← hyc]; exact hcore
  · rw [← hyc, heq]; exact h y hy

lemma acceptUpdate_core (cid : Int) (x : Check) :
    coreStatus (acceptUpdate cid x) ∨ acceptUpdate cid x = x := by
  simp only [acceptUpdate]; split
  · exact Or.inl (Or.inr (Or.inl rfl))
  · exact Or.inr rfl

lemma denyUpdate_core (cid : Int) (x : Check) :
    coreStatus (denyUpdate cid x) ∨ denyUpdate cid x = x := by
  simp only [denyUpdate]; split
  · exact Or.inl (Or.inr (Or.inr rfl))
  · exact Or.inr rfl

lemma forwardUpdate_core (cid p uid now : Int) (x : Check) :
    coreStatus (forwardUpdate cid p uid now x) ∨ forwardUpdate cid p uid now x = x := by
  simp only [forwardUpdate]; split
  · exact Or.inl (Or.inl rfl)
  · exact Or.inr rfl

lemma cancelFwdUpdate_core (cid uid : Int) (ns : Option Int) (x : Check) :
    coreStatus (cancelFwdUpdate cid uid ns x) ∨ cancelFwdUpdate cid uid ns x = x := by
  simp only [cancelFwdUpdate]; split
  · exact Or.inl (Or.inr (Or.inl rfl))
  · exact Or.inr rfl

lemma revokeUpdate_core (cid : Int) (x : Check) :
    coreStatus (revokeUpdate cid x) ∨ revokeUpdate cid x = x := by
  simp only [revokeUpdate]; split
  · exact Or.inl (Or.inl rfl)
  · exact Or.inr rfl

lemma applyOp_core (s : BankState) (op : LifecycleOp)
    (h : ∀ c ∈ s.checks, coreStatus c) : ∀ c ∈ (applyOp s op).checks, coreStatus c := by
  cases op with
  | issue issuer payee amount now custom days =>
    intro c hc
    simp only [applyOp, issue_check] at hc
    rw [resolveUser_checks] at hc
    rcases List.mem_append.mp hc with hold | hnew
    · exact h c hold
    · rw [List.mem_singleton.mp hnew]
      exact Or.inl rfl
  | accept user cid =>
    intro c hc
    simp only [applyOp, accept_check] at hc
    cases hfind : s.checks.find? (acceptSel user cid) with
    | none => rw [hfind] at hc; exact h c hc
    | some c0 =>
      rw [hfind] at hc
      exact mem_map_core (acceptUpdate_core c0.id) h c hc
  | acceptByIssuer user issuer =>
    intro c hc
    simp only [applyOp, accept_check_by_issuer] at hc
    cases hfind : (resolveUser s issuer).2.checks.find?
        (acceptByIssuerSel user (resolveUser s issuer).1) with
    | none =>
      rw [hfind] at hc
      rw [resolveUser_checks] at hc
      exact h c hc
    | some c0 =>
      rw [hfind] at hc
      simp only [resolveUser_checks] at hc
      exact mem_map_core (acceptUpdate_core c0.id) h c hc
  | deny user cid =>
    intro c hc
    simp only [applyOp, deny_check] at hc
    cases hfind : s.checks.find? (denySel user cid) with
    | none => rw [hfind] at hc; exact h c hc
    | some c0 =>
      rw [hfind] at hc
      exact mem_map_core (denyUpdate_core c0.id) h c hc
  | denyByIssuer user issuer =>
    intro c hc
    simp only [applyOp, deny_check_by_issuer] at hc
    cases hfind : (resolveUser s issuer).2.checks.find?
        (denyByIssuerSel user (resolveUser s issuer).1) with
    | none =>
      rw [hfind] at hc
      rw [resolveUser_checks] at hc
      exact h c hc
    | some c0 =>
      rw [hfind] at hc
      simp only [resolveUser_checks] at hc
      exact mem_map_core (denyUpdate_core c0.id) h c hc
  | forward user cid payee now =>
    intro c hc
    simp only [applyOp, forward_check] at hc
    cases hfind : s.checks.find? (forwardSel user cid) with
    | none => rw [hfind] at hc; exact h c hc
    | some c0 =>
      rw [hfind] at hc
      simp only [resolveUser_checks] at hc
      exact mem_map_core (forwardUpdate_core cid (resolveUser s payee).1 user now) h c hc
  | cancelForward user cid now =>
    intro c hc
    simp only [applyOp, cancel_forward] at hc
    cases hfind : s.checks.find? (cancelFwdSel user cid) with
    | none => rw [hfind] at hc; exact h c hc
    | some c0 =>
      rw [hfind] at hc
      cases hw : windowExpired c0.issued_at now with
      | true => simp only [hw, if_true] at hc; exact h c hc
      | false =>
        simp only [hw, Bool.false_eq_true, if_false] at hc
        exact mem_map_core
          (cancelFwdUpdate_core cid user (if c0.issuer_id == user then some user else none)) h c hc
  | cancelIssuance user cid now =>
    intro c hc
    simp only [applyOp, cancel_issuance] at hc
    cases hfind : s.checks.find? (cancelIssSel user cid) with
    | none => rw [hfind] at hc; exact h c hc
    | some c0 =>
      rw [hfind] at hc
      cases hw : windowExpired c0.issued_at now with
      | true => simp only [hw, if_true] at hc; exact h c hc
      | false =>
        simp only [hw, Bool.false_eq_true, if_false] at hc
        exact h c (List.mem_of_mem_filter hc)
  | revokeDecision user cid =>
    intro c hc
    simp only [applyOp, revoke_incoming_decision] at hc
    cases hfind : s.checks.find? (fun x => x.id == cid && x.payee_id == user) with
    | none => rw [hfind] at hc; exact h c hc
    | some c0 =>
      rw [hfind] at hc
      exact mem_map_core (revokeUpdate_core cid) h c hc

lemma applyOps_core (ops : List LifecycleOp) :
    ∀ (s : BankState), (∀ c ∈ s.checks, coreStatus c) →
      ∀ c ∈ (applyOps s ops).checks, coreStatus c := by
  induction ops with
  | nil => intro s h; simpa [applyOps] using h
  | cons op rest ih =>
    intro s h
    have : applyOps s (op :: rest) = applyOps (applyOp s op) rest := rfl
    rw [this]
    exact ih (applyOp s op) (applyOp_core s op h)

/-- C7: along any sequence of lifecycle operations, every check's status
stays in the five-value enumerated set, and the operations only ever assign
PENDING, ACCEPTED or DENIED — a store free of FORWARDED/TOKENIZED stays
free of them. -/
theorem status_invariant_preserved (s : BankState) (ops : List LifecycleOp) :
    (∀ c ∈ (applyOps s ops).checks,
      c.status = Status.PENDING ∨ c.status = Status.ACCEPTED ∨ c.status = Status.DENIED ∨
      c.status = Status.FORWARDED ∨ c.status = Status.TOKENIZED) ∧
    ((∀ c ∈ s.checks,
        c.status = Status.PENDING ∨ c.status = Status.ACCEPTED ∨ c.status = Status.DENIED) →
      ∀ c ∈ (applyOps s ops).checks,
        c.status = Status.PENDING ∨ c.status = Status.ACCEPTED ∨ c.status = Status.DENIED) := by
  constructor
  · intro c _
    cases hs : c.status
    · exact Or.inl rfl
    · exact Or.inr (Or.inl rfl)
    · exact Or.inr (Or.inr (Or.inl rfl))
    · exact Or.inr (Or.inr (Or.inr (Or.inl rfl)))
    · exact Or.inr (Or.inr (Or.inr (Or.inr rfl)))
  · intro h c hc
    exact applyOps_core ops s h c hc

/-- A demonstration run touching every kind of transition. -/
def demoOps : List LifecycleOp :=
  [.issue 1 "Bob" 100 0 none 0, .accept 2 1, .forward 2 1 "Carol" 10,
   .cancelForward 2 1 30, .deny 2 1, .revokeDecision 2 1]

/-- Witness for C7: the demonstration run never leaves the three core
statuses. -/
theorem status_invariant_preserved_witness :
    (applyOps demoBase demoOps).checks.all
      (fun c => c.status == Status.PENDING || c.status == Status.ACCEPTED ||
        c.status == Status.DENIED) = true := by
  have h := (status_invariant_preserved demoBase demoOps).2 (by decide)
  rw [List.all_eq_true]
  intro c hc
  rcases h c hc with h1 | h1 | h1 <;> simp [h1]


/-- C8: on an existing check the revoke Router branches in order — sender
and PENDING dispatches to `cancel_forward`; else issuer and PENDING to
`cancel_issuance`; else payee with ACCEPTED/DENIED to
`revoke_incoming_decision`; in every other case it fails without invoking
any engine operation and leaves the store unchanged. -/
theorem revoke_router_dispatch (s : BankState) (uid cid now : Int) (c : Check)
    (hfind : s.checks.find? (fun x => x.id == cid) = some c) :
    ((c.sender_id = some uid ∧ c.status = Status.PENDING) →
      execute_revoke_one s uid cid now = cancel_forward s uid cid now) ∧
    (¬ (c.sender_id = some uid ∧ c.status = Status.PENDING) →
      (c.issuer_id = uid ∧ c.status = Status.PENDING) →
      execute_revoke_one s uid cid now = cancel_issuance s uid cid now) ∧
    (¬ (c.sender_id = some uid ∧ c.status = Status.PENDING) →
      ¬ (c.issuer_id = uid ∧ c.status = Status.PENDING) →
      c.payee_id = uid → (c.status = Status.ACCEPTED ∨ c.status = Status.DENIED) →
      execute_revoke_one s uid cid now = revoke_incoming_decision s uid cid) ∧
    (¬ (c.sender_id = some uid ∧ c.status = Status.PENDING) →
      ¬ (c.issuer_id = uid ∧ c.status = Status.PENDING) →
      ¬ (c.payee_id = uid ∧ (c.status = Status.ACCEPTED ∨ c.status = Status.DENIED)) →
      (execute_revoke_one s uid cid now).1.1 = false ∧
      (execute_revoke_one s uid cid now).2 = s) := by
  have hA : ∀ (b : Bool), (c.sender_id == some uid && c.status == Status.PENDING) = b →
      ((c.sender_id = some uid ∧ c.status = Status.PENDING) ↔ b = true) := by
    intro b hb
    rw [← hb]
    simp [Bool.and_eq_true]
  refine ⟨?_, ?_, ?_, ?_⟩
  · rintro ⟨h1, h2⟩
    have hb : (c.sender_id == some uid && c.status == Status.PENDING) = true := by
      simp [h1, h2]
    simp only [execute_revoke_one]
    rw [hfind]
    simp [hb]
  · intro hn ⟨h1, h2⟩
    have hb : (c.sender_id == some uid && c.status == Status.PENDING) = false := by
      rcases Bool.eq_false_or_eq_true (c.sender_id == some uid && c.status == Status.PENDING) with h | h
      · exact absurd ((hA true h).mpr rfl) hn
      · exact h
    have hb2 : (c.issuer_id == uid && c.status == Status.PENDING) = true := by
      simp [h1, h2]
    simp only [execute_revoke_one]
    rw [hfind]
    simp [hb, hb2]
  · intro hn1 hn2 hpay hstat
    have hb : (c.sender_id == some uid && c.status == Status.PENDING) = false := by
      rcases Bool.eq_false_or_eq_true (c.sender_id == some uid && c.status == Status.PENDING) with h | h
      · exact absurd ((hA true h).mpr rfl) hn1
      · exact h
    have hb2 : (c.issuer_id == uid && c.status == Status.PENDING) = false := by
      rcases Bool.eq_false_or_eq_true (c.issuer_id == uid && c.status == Status.PENDING) with h | h
      · rw [Bool.and_eq_true] at h
        simp only [beq_iff_eq] at h
        exact absurd h hn2
      · exact h
    have hb3 : (c.status == Status.ACCEPTED || c.status == Status.DENIED) = true := by
      rcases hstat with h | h <;> simp [h]
    simp only [execute_revoke_one]
    rw [hfind]
    simp [hb, hb2, hpay, hb3]
  · intro hn1 hn2 hn3
    have hb : (c.sender_id == some uid && c.status == Status.PENDING) = false := by
      rcases Bool.eq_false_or_eq_true (c.sender_id == some uid && c.status == Status.PENDING) with h | h
      · exact absurd ((hA true h).mpr rfl) hn1
      · exact h
    have hb2 : (c.issuer_id == uid && c.status == Status.PENDING) = false := by
      rcases Bool.eq_false_or_eq_true (c.issuer_id == uid && c.status == Status.PENDING) with h | h
      · rw [Bool.and_eq_true] at h
        simp only [beq_iff_eq] at h
        exact absurd h hn2
      · exact h
    by_cases hpay : c.payee_id = uid
    · have hb3 : (c.status == Status.ACCEPTED || c.status == Status.DENIED) = false := by
        rcases Bool.eq_false_or_eq_true (c.status == Status.ACCEPTED || c.status == Status.DENIED) with h | h
        · rw [Bool.or_eq_true] at h
          simp only [beq_iff_eq] at h
          exact absurd ⟨hpay, h⟩ hn3
        · exact h
      simp only [execute_revoke_one]
      rw [hfind]
      simp [hb, hb2, hpay, hb3]
    · simp only [execute_revoke_one]
      rw [hfind]
      simp [hb, hb2, hpay]

/-- Witness for C8: all four branches exercised on the demonstration
stores — Bob as sender, Ann as issuer, Bob as deciding payee, Ann as
neither. -/
theorem revoke_router_dispatch_witness :
    execute_revoke_one demoForwarded 2 1 20 = cancel_forward demoForwarded 2 1 20 ∧
    execute_revoke_one demoForwarded 1 1 20 = cancel_issuance demoForwarded 1 1 20 ∧
    execute_revoke_one demoAccepted 2 1 20 = revoke_incoming_decision demoAccepted 2 1 ∧
    ((execute_revoke_one demoAccepted 1 1 20).1.1 = false ∧
      (execute_revoke_one demoAccepted 1 1 20).2 = demoAccepted) := by
  refine ⟨?_, ?_, ?_, ?_⟩
  · exact (revoke_router_dispatch demoForwarded 2 1 20
      ⟨1, 1, 3, some 2, 100, Status.PENDING, some 10, 0, none⟩ (by decide)).1 (by decide)
  · exact (revoke_router_dispatch demoForwarded 1 1 20
      ⟨1, 1, 3, some 2, 100, Status.PENDING, some 10, 0, none⟩ (by decide)).2.1 (by decide) (by decide)
  · exact (revoke_router_dispatch demoAccepted 2 1 20
      ⟨1, 1, 2, none, 100, Status.ACCEPTED, some 0, 0, none⟩ (by decide)).2.2.1
      (by decide) (by decide) (by decide) (by decide)
  · exact (revoke_router_dispatch demoAccepted 1 1 20
      ⟨1, 1, 2, none, 100, Status.ACCEPTED, some 0, 0, none⟩ (by decide)).2.2.2
      (by decide) (by decide) (by decide)


lemma acceptLoop_spec (uid : Int) :
    ∀ (ids : List Int) (s : BankState),
      (acceptLoop uid s ids).2.length = ids.length ∧
      (acceptLoop uid s ids).1 = ids.foldl (fun st i => (accept_check st uid i).2) s := by
  intro ids
  induction ids with
  | nil => intro s; exact ⟨rfl, rfl⟩
  | cons cid rest ih =>
    intro s
    simp only [acceptLoop, List.foldl_cons, List.length_cons]
    exact ⟨by simp [(ih _).1], (ih _).2⟩

lemma denyLoop_spec (uid : Int) :
    ∀ (ids : List Int) (s : BankState),
      (denyLoop uid s ids).2.length = ids.length ∧
      (denyLoop uid s ids).1 = ids.foldl (fun st i => (deny_check st uid i).2) s := by
  intro ids
  induction ids with
  | nil => intro s; exact ⟨rfl, rfl⟩
  | cons cid rest ih =>
    intro s
    simp only [denyLoop, List.foldl_cons, List.length_cons]
    exact ⟨by simp [(ih _).1], (ih _).2⟩

lemma revokeLoop_spec (uid now : Int) :
    ∀ (ids : List Int) (s : BankState),
      (revokeLoop uid now s ids).2.length = ids.length ∧
      (revokeLoop uid now s ids).1 =
        ids.foldl (fun st i => (execute_revoke_one st uid i now).2) s := by
  intro ids
  induction ids with
  | nil => intro s; exact ⟨rfl, rfl⟩
  | cons cid rest ih =>
    intro s
    simp only [revokeLoop, List.foldl_cons, List.length_cons]
    exact ⟨by simp [(ih _).1], (ih _).2⟩

/-- C9 (amended): the Router drops falsy (zero) identifiers but does not
deduplicate — for accept, deny and revoke it applies the underlying engine
operation exactly once per remaining list entry, in order, threading the
store through, and joins the per-check messages with " | "
(deduplication happens upstream in the external interpreter, not here). -/
theorem router_batch_once_per_entry (s : BankState) (uid now : Int) (ids : List Int) :
    ((acceptLoop uid s (keptIds ids)).2.length = (keptIds ids).length ∧
      (acceptLoop uid s (keptIds ids)).1 =
        (keptIds ids).foldl (fun st i => (accept_check st uid i).2) s) ∧
    ((denyLoop uid s (keptIds ids)).2.length = (keptIds ids).length ∧
      (denyLoop uid s (keptIds ids)).1 =
        (keptIds ids).foldl (fun st i => (deny_check st uid i).2) s) ∧
    ((revokeLoop uid now s (keptIds ids)).2.length = (keptIds ids).length ∧
      (revokeLoop uid now s (keptIds ids)).1 =
        (keptIds ids).foldl (fun st i => (execute_revoke_one st uid i now).2) s) ∧
    (keptIds ids ≠ [] →
      execute_accept_list s uid ids =
        ((acceptLoop uid s (keptIds ids)).1,
         (true, String.intercalate " | " (acceptLoop uid s (keptIds ids)).2))) ∧
    (keptIds ids ≠ [] →
      execute_deny_list s uid ids =
        ((denyLoop uid s (keptIds ids)).1,
         (true, String.intercalate " | " (denyLoop uid s (keptIds ids)).2))) ∧
    (keptIds ids ≠ [] →
      execute_revoke_list s uid now ids =
        ((revokeLoop uid now s (keptIds ids)).1,
         ((revokeLoop uid now s (keptIds ids)).2.any (fun e => e.1),
          String.intercalate " | " ((revokeLoop uid now s (keptIds ids)).2.map (fun e => e.2))))) := by
  refine ⟨acceptLoop_spec uid (keptIds ids) s, denyLoop_spec uid (keptIds ids) s,
    revokeLoop_spec uid now (keptIds ids) s, ?_, ?_, ?_⟩
  · intro hne
    simp only [execute_accept_list]
    rw [if_neg (by simpa [List.isEmpty_iff] using hne)]
  · intro hne
    simp only [execute_deny_list]
    rw [if_neg (by simpa [List.isEmpty_iff] using hne)]
  · intro hne
    simp only [execute_revoke_list]
    rw [if_neg (by simpa [List.isEmpty_iff] using hne)]

/-- Witness for C9 (amended): the duplicate-carrying list [1, 1] yields
two per-check results and the joined message. -/
theorem router_batch_once_per_entry_witness :
    (acceptLoop 2 demoIssued (keptIds [1, 1])).2.length = 2 ∧
    execute_accept_list demoIssued 2 [1, 1] =
      ((acceptLoop 2 demoIssued (keptIds [1, 1])).1,
       (true, String.intercalate " | " (acceptLoop 2 demoIssued (keptIds [1, 1])).2)) := by
  constructor
  · exact (router_batch_once_per_entry demoIssued 2 0 [1, 1]).1.1
  · exact (router_batch_once_per_entry demoIssued 2 0 [1, 1]).2.2.2.1 (by decide)

/-- Counterexample to C9 as stated: the Router, fed the list [1, 1], runs
the accept operation twice for the single distinct identifier 1 — the first
run accepts the check and the second run is really executed and fails —
instead of deduplicating to at most one application. -/
theorem router_batch_duplicate_processed_twice :
    (acceptLoop 2 demoIssued [1, 1]).2 =
      ["#1: Check #1 Accepted", "#1: Check not found or not available to accept."] ∧
    (execute_accept_list demoIssued 2 [1, 1]).2.2 =
      "#1: Check #1 Accepted | #1: Check not found or not available to accept." := by decide

end Cogninance
